import Mathlib

/-!
Verification development for the Google Workspace log-collection script
`gws-get-logs-2.py`.  The script's pure core is embedded shallowly:

* records and timestamps are opaque natural numbers;
* the local filesystem is an association list from path strings to file
  contents;
* Python exceptions are modelled with `Except Unit` where they can escape
  a function, and with an explicit constructor (`ApiResult.tyErr`) where
  the source raises them inside a `try` block;
* the paginated remote API is modelled by the finite list of successive
  responses a run observes.
-/

/-- Association-list lookup keyed by strings: the model of reading an
attribute of an object, a key of a JSON mapping, or a path of the
filesystem.  Returns the value of the first matching key, if any. -/
def lookupKey {α : Type} : List (String × α) → String → Option α
  | [], _ => none
  | (k', v') :: t, k => if k' = k then some v' else lookupKey t k

/-- Association-list update: the model of `vars(args)[key] = value` --
replace the first binding of the key if present, otherwise add one. -/
def setKey {α : Type} : List (String × α) → String → α → List (String × α)
  | [], k, v => [(k, v)]
  | (k', v') :: t, k, v => if k' = k then (k, v) :: t else (k', v') :: setKey t k v

/-- The Python values the configuration-merging code manipulates. -/
inductive PyVal : Type
  | pNone : PyVal
  | pStr : String → PyVal
  | pBool : Bool → PyVal
  | pInt : Int → PyVal
deriving DecidableEq

/-- Python truthiness of a `PyVal`: `None`, the empty string, `False`
and `0` are falsy, everything else is truthy. -/
def truthy : PyVal → Bool
  | .pNone => false
  | .pStr s => !s.isEmpty
  | .pBool b => b
  | .pInt n => decide (n ≠ 0)

/-- One iteration of the config-merge loop (`gws-get-logs-2.py` lines
222-224): `if key not in args or not vars(args)[key]:
vars(args)[key] = config[key]`. -/
def mergeStep (args : List (String × PyVal)) (k : String) (v : PyVal) :
    List (String × PyVal) :=
  match lookupKey args k with
  | none => setKey args k v
  | some av => if truthy av then args else setKey args k v

/-- The config-merge loop `for key in config: ...` of the `__main__`
block: each key of the config file fills in an absent or falsy argument. -/
def mergeConfig (args : List (String × PyVal)) : List (String × PyVal) →
    List (String × PyVal)
  | [] => args
  | (k, v) :: rest => mergeConfig (mergeStep args k v) rest

/-- Modelled from the spec's words, for comparison with `mergeConfig`:
the value the claim predicts for a config key after merging -- the CLI
value when that flag was set (present and truthy), the config value
otherwise. -/
def resolvedValue : Option PyVal → PyVal → PyVal
  | none, cv => cv
  | some av, cv => if truthy av then av else cv

/-- The argument keys the `argparse` parser of `gws-get-logs-2.py`
defines (lines 172-209, dashes mapped to underscores by argparse).
Note there is no `from_date` key. -/
def cliKeys : List String :=
  ["config", "creds_path", "delegated_creds", "output_path", "apps",
   "start_time", "end_time", "daily", "update", "overwrite", "log_level"]

/-- The attribute access `args.from_date` performed by the non-daily
branch `google.get_logs(args.from_date)` (line 263): an absent attribute
raises `AttributeError` (modelled `.error ()`), a present one yields the
value that is passed on to `get_logs`. -/
def nonDailyStart (args : List (String × PyVal)) : Except Unit PyVal :=
  match lookupKey args "from_date" with
  | none => .error ()
  | some v => .ok v

/-- One line of an existing log file, abstracted to its parse outcome:
`ok t` stands for a line that is valid JSON whose `id.time` field parses
to the timestamp `t`; `malformed` stands for a line on which
`json.loads` or the `id.time` extraction raises. -/
inductive LineParse : Type
  | ok : Nat → LineParse
  | malformed : LineParse
deriving DecidableEq

/-- The body of `_check_recent_date`'s `for line in f.readlines()` loop:
parse each line, raise (uncaught) on a malformed one, and keep the
latest timestamp seen so far (`if not return_date: ... elif
return_date < line_datetime: ...`). -/
def checkLoop : List LineParse → Option Nat → Except Unit (Option Nat)
  | [], acc => .ok acc
  | .malformed :: _, _ => .error ()
  | .ok t :: rest, acc =>
      match acc with
      | none => checkLoop rest (some t)
      | some r => checkLoop rest (some (if r < t then t else r))

/-- `Google._check_recent_date` (lines 55-70): for an absent file
(`none`) return `None`; otherwise scan every line for the maximal
`id.time` timestamp, propagating any parse exception. -/
def check_recent_date : Option (List LineParse) → Except Unit (Option Nat)
  | none => .ok none
  | some lines => checkLoop lines none

/-- One response of the remote `activities().list(...).execute()` call:
either a page of items together with whether a `nextPageToken` was
returned, or a `TypeError` raised client-side. -/
inductive ApiResult : Type
  | page : List Nat → Bool → ApiResult
  | tyErr : ApiResult
deriving DecidableEq

/-- The observable outcome of `Google._get_activity_logs` on one output
file: the final file content (as the list of record lines), the number
of times the file was opened with mode `'w'` (truncations), and the
returned pair `(output_count, total_records)` -- the `return False,
False` of the `except TypeError` branch is the numeric value `(0, 0)`,
since Python's `False` equals `0`. -/
structure FetchResult : Type where
  file : List Nat
  truncations : Nat
  saved : Nat
  found : Nat
deriving DecidableEq

/-- The `while True` pagination loop of `_get_activity_logs` (lines
129-159), run against the finite list of successive API responses: a
`tyErr` response is caught and ends the call with counts `(0, 0)`; a
page with items is written to the file -- opened with `'w'` (truncate)
when `overwrite` else `'a'` (append) -- in reversed order
(`activities[::-1]`); the loop ends when no `nextPageToken` remains. -/
def fetchLoop (ow : Bool) : List ApiResult → List Nat → Nat → Nat → Nat →
    FetchResult
  | [], file, tr, oc, tot => ⟨file, tr, oc, tot⟩
  | .tyErr :: _, file, tr, _, _ => ⟨file, tr, 0, 0⟩
  | .page items hasNext :: rest, file, tr, oc, tot =>
      let file' := if items.isEmpty then file
        else (if ow then [] else file) ++ items.reverse
      let tr' := if !items.isEmpty && ow then tr + 1 else tr
      let oc' := oc + items.length
      let tot' := tot + items.length
      if hasNext then fetchLoop ow rest file' tr' oc' tot'
      else ⟨file', tr', oc', tot'⟩

/-- `Google._get_activity_logs` on an output file with initial content
`init` and response stream `resps`. -/
def get_activity_logs (ow : Bool) (init : List Nat) (resps : List ApiResult) :
    FetchResult :=
  fetchLoop ow resps init 0 0 0

/-- The per-application `(saved, found)` results accumulated by
`Google.get_logs` (lines 109-118) when update mode is off: each
application's fetch is run against its own mocked response stream
(`respOf`) and its own (initially empty) output file. -/
def get_logs_counts (respOf : List (String × List ApiResult)) (ow : Bool) :
    List String → List (String × Nat × Nat)
  | [] => []
  | app :: rest =>
      let r := get_activity_logs ow [] ((lookupKey respOf app).getD [])
      (app, r.saved, r.found) :: get_logs_counts respOf ow rest

/-- The output-file path built by `Google.get_logs` (lines 97-103):
`f"{output_path}/{from_date}_{to_date}/{app}_logs.json"`. -/
def filePath (outputPath fd toDate app : String) : String :=
  outputPath ++ "/" ++ fd ++ "_" ++ toDate ++ "/" ++ app ++ "_logs.json"

/-- The path/start-time trace of the `for app in self.app_list` loop of
`Google.get_logs` (lines 94-115), with the filesystem `fs` fixed: for
each application, the output path is built from the *current* value of
the `from_date` loop variable; in update mode `from_date` is then
reassigned to `self._check_recent_date(output_file) or from_date` (a
found timestamp is rendered into the string the f-string interpolation
would produce), and that value is what the fetch receives as
`start_time` and what the next application's folder name is built from.
Each trace entry is `(app, output_file, start_time)`.  A parse
exception from `_check_recent_date` propagates. -/
def get_logs (fs : List (String × List LineParse)) (outputPath toDate : String)
    (update : Bool) : List String → String →
    Except Unit (List (String × String × String))
  | [], _ => .ok []
  | app :: rest, fd =>
      let path := filePath outputPath fd toDate app
      match (if update then check_recent_date (lookupKey fs path) else .ok none) with
      | .error e => .error e
      | .ok r =>
          let fd' := match r with
            | some t => toString t
            | none => fd
          match get_logs fs outputPath toDate update rest fd' with
          | .error e => .error e
          | .ok tl => .ok ((app, path, fd') :: tl)

/-- Microseconds per day: Python `datetime` has microsecond resolution,
so a day instant is a `Nat` count of microseconds since the epoch. -/
def usecPerDay : Nat := 86400000000

/-- `get_start_of_the_day` (line 162): `datetime.combine(day,
time.min)` -- the midnight starting the instant's calendar day. -/
def get_start_of_the_day (t : Nat) : Nat :=
  t / usecPerDay * usecPerDay

/-- `get_end_of_the_day` (line 166): `datetime.combine(day, time.max)`
-- the last representable microsecond (23:59:59.999999) of the
instant's calendar day. -/
def get_end_of_the_day (t : Nat) : Nat :=
  t / usecPerDay * usecPerDay + (usecPerDay - 1)

/-- The `--daily` driver loop of the `__main__` block (lines 242-261):
while `start_time < end_time`, emit the window from `start_time` to
`get_end_of_the_day(start_time)` clamped to `end_time`, then advance
`start_time` to the start of the next calendar day.  Returns the list
of `(start, end)` windows passed to `get_logs`. -/
def dailyWindows (s e : Nat) : List (Nat × Nat) :=
  if _h : s < e then
    (s, if get_end_of_the_day s > e then e else get_end_of_the_day s) ::
      dailyWindows (get_start_of_the_day (s + usecPerDay)) e
  else []
termination_by e - s
decreasing_by
  simp only [get_start_of_the_day, usecPerDay]
  omega

/-! ## Lemmas about association-list lookup and the config merge -/

theorem lookupKey_setKey_self {α : Type} (l : List (String × α)) (k : String) (v : α) :
    lookupKey (setKey l k v) k = some v := by
  induction l with
  | nil => simp [setKey, lookupKey]
  | cons p t ih =>
      obtain ⟨k', v'⟩ := p
      by_cases h : k' = k
      · simp [setKey, h, lookupKey]
      · simp [setKey, h, lookupKey, ih]

theorem lookupKey_setKey_ne {α : Type} (l : List (String × α)) (k k' : String) (v : α)
    (h : k ≠ k') : lookupKey (setKey l k v) k' = lookupKey l k' := by
  induction l with
  | nil => simp [setKey, lookupKey, h]
  | cons p t ih =>
      obtain ⟨k'', v''⟩ := p
      by_cases h2 : k'' = k
      · subst h2
        simp [setKey, lookupKey, h]
      · simp [setKey, h2, lookupKey, ih]

theorem mergeStep_lookup_self (a : List (String × PyVal)) (k : String) (v : PyVal) :
    lookupKey (mergeStep a k v) k = some (resolvedValue (lookupKey a k) v) := by
  unfold mergeStep
  cases hl : lookupKey a k with
  | none => simp [resolvedValue, lookupKey_setKey_self]
  | some av =>
      by_cases ht : truthy av
      · simp [resolvedValue, ht, hl]
      · simp [resolvedValue, ht, lookupKey_setKey_self]

theorem mergeStep_lookup_ne (a : List (String × PyVal)) (k k' : String) (v : PyVal)
    (h : k ≠ k') : lookupKey (mergeStep a k v) k' = lookupKey a k' := by
  unfold mergeStep
  cases hl : lookupKey a k with
  | none => exact lookupKey_setKey_ne a k k' v h
  | some av =>
      by_cases ht : truthy av
      · simp [ht]
      · simp [ht, lookupKey_setKey_ne a k k' v h]

theorem lookupKey_eq_none_of_not_mem {α : Type} (l : List (String × α)) (k : String)
    (h : k ∉ l.map Prod.fst) : lookupKey l k = none := by
  induction l with
  | nil => rfl
  | cons p t ih =>
      obtain ⟨k', v'⟩ := p
      simp only [List.map_cons, List.mem_cons, not_or] at h
      rw [lookupKey, if_neg (fun hh => h.1 hh.symm)]
      exact ih h.2

theorem mergeConfig_lookup_of_not_mem (c : List (String × PyVal)) :
    ∀ (a : List (String × PyVal)) (k : String), k ∉ c.map Prod.fst →
      lookupKey (mergeConfig a c) k = lookupKey a k := by
  induction c with
  | nil => intro a k _; rfl
  | cons p rest ih =>
      obtain ⟨k₀, v₀⟩ := p
      intro a k h
      simp only [List.map_cons, List.mem_cons, not_or] at h
      rw [mergeConfig, ih (mergeStep a k₀ v₀) k h.2]
      exact mergeStep_lookup_ne a k₀ k v₀ (fun hh => h.1 hh.symm)

theorem mergeConfig_preserves_some (c : List (String × PyVal)) :
    ∀ (a : List (String × PyVal)) (k : String) (w : PyVal),
      lookupKey a k = some w → ∃ w', lookupKey (mergeConfig a c) k = some w' := by
  induction c with
  | nil => intro a k w h; exact ⟨w, h⟩
  | cons p rest ih =>
      obtain ⟨k₀, v₀⟩ := p
      intro a k w h
      rw [mergeConfig]
      by_cases hk : k₀ = k
      · subst hk
        exact ih _ _ _ (mergeStep_lookup_self a k₀ v₀)
      · exact ih _ _ w (by rw [mergeStep_lookup_ne a k₀ k v₀ hk]; exact h)

theorem mergeConfig_mem_some (c : List (String × PyVal)) :
    ∀ (a : List (String × PyVal)) (k : String), k ∈ c.map Prod.fst →
      ∃ w, lookupKey (mergeConfig a c) k = some w := by
  induction c with
  | nil => intro a k h; simp at h
  | cons p rest ih =>
      obtain ⟨k₀, v₀⟩ := p
      intro a k h
      rw [mergeConfig]
      rcases List.mem_cons.mp h with h1 | h1
      · subst h1
        exact mergeConfig_preserves_some rest _ _ _ (mergeStep_lookup_self a k v₀)
      · exact ih _ _ h1

/-- C8: for every key present in the JSON config file, the merged
argument value is the config value when the CLI flag is absent or
falsy, and the CLI value otherwise (CLI precedence). -/
theorem c8_config_merge (args config : List (String × PyVal)) (k : String) (v : PyVal)
    (hnd : (config.map Prod.fst).Nodup) (hk : lookupKey config k = some v) :
    lookupKey (mergeConfig args config) k = some (resolvedValue (lookupKey args k) v) := by
  induction config generalizing args with
  | nil => simp [lookupKey] at hk
  | cons p rest ih =>
      obtain ⟨k₀, v₀⟩ := p
      simp only [List.map_cons, List.nodup_cons] at hnd
      rw [lookupKey] at hk
      rw [mergeConfig]
      by_cases h : k₀ = k
      · subst h
        rw [if_pos rfl] at hk
        injection hk with hv
        rw [mergeConfig_lookup_of_not_mem rest (mergeStep args k₀ v₀) k₀ hnd.1]
        rw [mergeStep_lookup_self args k₀ v₀, hv]
      · rw [if_neg h] at hk
        rw [ih (mergeStep args k₀ v₀) hnd.2 hk]
        rw [mergeStep_lookup_ne args k₀ k v₀ h]

/-- C8 witness: a falsy CLI flag (`--update` left at its `False`
default) is overridden by the config file's `update: true`. -/
theorem c8_config_merge_witness :
    ((([("update", PyVal.pBool true)]).map Prod.fst).Nodup ∧
     lookupKey [("update", PyVal.pBool true)] "update" = some (PyVal.pBool true)) ∧
    lookupKey (mergeConfig [("update", PyVal.pBool false), ("apps", PyVal.pStr "login")]
        [("update", PyVal.pBool true)]) "update" =
      some (resolvedValue
        (lookupKey [("update", PyVal.pBool false), ("apps", PyVal.pStr "login")] "update")
        (PyVal.pBool true)) :=
  ⟨⟨by decide, by decide⟩,
   c8_config_merge [("update", PyVal.pBool false), ("apps", PyVal.pStr "login")]
     [("update", PyVal.pBool true)] "update" (PyVal.pBool true) (by decide) (by decide)⟩

/-- C9: the argparse parser defines no `from_date` argument, so the
non-daily branch's `args.from_date` raises `AttributeError` exactly
when the config file did not inject a `from_date` key; the fetch call
is reached only when it did. -/
theorem c9_non_daily_needs_config_from_date (args config : List (String × PyVal))
    (hargs : args.map Prod.fst = cliKeys) :
    ("from_date" ∉ config.map Prod.fst →
      nonDailyStart (mergeConfig args config) = .error ()) ∧
    ("from_date" ∈ config.map Prod.fst →
      ∃ v, nonDailyStart (mergeConfig args config) = .ok v) := by
  constructor
  · intro h
    have h0 : lookupKey args "from_date" = none := by
      apply lookupKey_eq_none_of_not_mem
      rw [hargs]
      decide
    unfold nonDailyStart
    rw [mergeConfig_lookup_of_not_mem config args "from_date" h, h0]
  · intro h
    obtain ⟨w, hw⟩ := mergeConfig_mem_some config args "from_date" h
    exact ⟨w, by unfold nonDailyStart; rw [hw]⟩

/-! ## Lemmas about the recent-date scan -/

theorem checkLoop_ok_acc (ts : List Nat) :
    ∀ a : Nat, checkLoop (ts.map LineParse.ok) (some a) =
      .ok (some (ts.foldl (fun r t => if r < t then t else r) a)) := by
  induction ts with
  | nil => intro a; rfl
  | cons t rest ih =>
      intro a
      simp only [List.map_cons, checkLoop, List.foldl_cons]
      exact ih _

theorem foldlMax_spec (ts : List Nat) :
    ∀ a : Nat,
      (List.foldl (fun r t => if r < t then t else r) a ts ∈ a :: ts) ∧
      a ≤ List.foldl (fun r t => if r < t then t else r) a ts ∧
      ∀ x ∈ ts, x ≤ List.foldl (fun r t => if r < t then t else r) a ts := by
  induction ts with
  | nil =>
      intro a
      refine ⟨by simp, le_refl a, by simp⟩
  | cons t rest ih =>
      intro a
      obtain ⟨ih1, ih2, ih3⟩ := ih (if a < t then t else a)
      have ha : a ≤ (if a < t then t else a) := by split <;> omega
      have ht : t ≤ (if a < t then t else a) := by split <;> omega
      simp only [List.foldl_cons]
      refine ⟨?_, le_trans ha ih2, ?_⟩
      · rcases List.mem_cons.mp ih1 with h | h
        · rw [h]
          by_cases hat : a < t
        

          · simp [hat]
          · simp [hat]
        · simp [List.mem_cons, h]
      · intro x hx
        rcases List.mem_cons.mp hx with rfl | hx
        · exact le_trans ht ih2
        · exact ih3 x hx

/-- C6: on an existing file all of whose lines parse, the scanner
returns the maximum of the parsed timestamps; on an existing empty file
or an absent file it returns `None`. -/
theorem c6_check_recent_max (ts : List Nat) (h : ts ≠ []) :
    (∃ m, check_recent_date (some (ts.map LineParse.ok)) = .ok (some m) ∧
      m ∈ ts ∧ ∀ x ∈ ts, x ≤ m) ∧
    check_recent_date (some []) = .ok none ∧
    check_recent_date none = .ok none := by
  refine ⟨?_, rfl, rfl⟩
  obtain ⟨t, rest, rfl⟩ := List.exists_cons_of_ne_nil h
  refine ⟨List.foldl (fun r t => if r < t then t else r) t rest, ?_, ?_, ?_⟩
  · exact checkLoop_ok_acc rest t
  · exact (foldlMax_spec rest t).1
  · intro x hx
    rcases List.mem_cons.mp hx with rfl | hx
    · exact (foldlMax_spec rest x).2.1
    · exact (foldlMax_spec rest t).2.2 x hx

/-- C6 witness: the scanner on the three-line file with timestamps
3, 7, 5 returns their maximum. -/
theorem c6_check_recent_max_witness :
    (([3, 7, 5] : List Nat) ≠ []) ∧
    ((∃ m, check_recent_date (some (([3, 7, 5] : List Nat).map LineParse.ok)) = .ok (some m) ∧
        m ∈ ([3, 7, 5] : List Nat) ∧ ∀ x ∈ ([3, 7, 5] : List Nat), x ≤ m) ∧
      check_recent_date (some []) = .ok none ∧
      check_recent_date none = .ok none) :=
  ⟨by decide, c6_check_recent_max [3, 7, 5] (by decide)⟩

/-- C10: an existing file with a line that is not valid JSON (or whose
JSON lacks a parseable `id.time`) makes the scanner raise instead of
returning a timestamp or `None` -- also when a valid line precedes it. -/
theorem c10_malformed_line_raises :
    check_recent_date (some [LineParse.malformed]) = .error () ∧
    check_recent_date (some [LineParse.ok 5, LineParse.malformed]) = .error () :=
  ⟨rfl, rfl⟩

/-- C4: a `TypeError` from the remote list call is caught inside
`_get_activity_logs`, which returns normally with the file as written
so far and counts `(0, 0)` (Python `False, False`); `get_logs` then
simply proceeds with the remaining applications. -/
theorem c4_type_error_caught (ow : Bool) (f : List Nat) (resps : List ApiResult)
    (respOf : List (String × List ApiResult)) (a : String) (rest : List String)
    (h : lookupKey respOf a = some (ApiResult.tyErr :: resps)) :
    get_activity_logs ow f (ApiResult.tyErr :: resps) = ⟨f, 0, 0, 0⟩ ∧
    get_logs_counts respOf ow (a :: rest) =
      (a, 0, 0) :: get_logs_counts respOf ow rest := by
  constructor
  · rfl
  · simp [get_logs_counts, h, get_activity_logs, fetchLoop]

/-- C4 witness: an application whose first list call raises `TypeError`
reports `(0, 0)` and the run continues with the next application. -/
theorem c4_type_error_caught_witness :
    lookupKey [("admin", [ApiResult.tyErr])] "admin" = some (ApiResult.tyErr :: []) ∧
    (get_activity_logs false [] (ApiResult.tyErr :: []) = ⟨[], 0, 0, 0⟩ ∧
     get_logs_counts [("admin", [ApiResult.tyErr])] false ("admin" :: ["drive"]) =
       ("admin", 0, 0) :: get_logs_counts [("admin", [ApiResult.tyErr])] false ["drive"]) :=
  ⟨by decide,
   c4_type_error_caught false [] [] [("admin", [ApiResult.tyErr])] "admin" ["drive"] (by decide)⟩

/-- C1 fails on the code: in overwrite mode the file is reopened with
mode `'w'` for every non-empty page, so after two one-record pages only
the last page's record survives -- not the union of all pages.  In
append mode the same two pages do yield the union in reverse-per-page
order. -/
theorem c1_overwrite_keeps_only_last_page :
    (get_activity_logs true [] [ApiResult.page [1] true, ApiResult.page [2] false]).file
      = [2] ∧
    (1 : Nat) ∉
      (get_activity_logs true [] [ApiResult.page [1] true, ApiResult.page [2] false]).file ∧
    (get_activity_logs false [] [ApiResult.page [1] true, ApiResult.page [2] false]).file
      = [1, 2] := by
  decide

/-- C3 fails on the code: with two non-empty pages, overwrite mode
truncates the file twice (once per page), not exactly once before the
first page; and when no page has records, overwrite mode never
truncates at all, leaving the prior content `[9]` in place.  Append
mode does preserve prior content, the earlier bytes coming first. -/
theorem c3_overwrite_truncates_per_page :
    (get_activity_logs true [9] [ApiResult.page [1] true, ApiResult.page [2] false]).truncations
      = 2 ∧
    (get_activity_logs true [9] [ApiResult.page [] false]).truncations = 0 ∧
    (get_activity_logs true [9] [ApiResult.page [] false]).file = [9] ∧
    (get_activity_logs false [9] [ApiResult.page [1] true, ApiResult.page [2] false]).file
      = [9, 1, 2] := by
  decide

/-- C2 fails on the code: `from_date` is a loop variable of `get_logs`,
so in update mode application `a`'s maximal timestamp 50 becomes the
start time of application `b` as well, although `b` has no output file
(neither under the folder named by the configured start `10` nor under
the mutated one); the claim says `b` falls back to the configured
start `10`. -/
theorem c2_update_start_leaks_across_apps :
    get_logs [("out/10_E/a_logs.json", [LineParse.ok 50])] "out" "E" true ["a", "b"] "10" =
      .ok [("a", "out/10_E/a_logs.json", "50"), ("b", "out/50_E/b_logs.json", "50")] ∧
    lookupKey [("out/10_E/a_logs.json", [LineParse.ok 50])] "out/10_E/b_logs.json" = none ∧
    ("50" : String) ≠ "10" :=
  ⟨rfl, rfl, by decide⟩

/-- C7 fails on the code: in update mode the folder name is rebuilt from
the mutated `from_date` loop variable, so application `b`'s records go
to `o/9_2/b_logs.json` although the window argument passed to
`get_logs` was `1` -- the claim predicts `o/1_2/b_logs.json`. -/
theorem c7_output_path_uses_mutated_from_date :
    get_logs [("o/1_2/a_logs.json", [LineParse.ok 9])] "o" "2" true ["a", "b"] "1" =
      .ok [("a", "o/1_2/a_logs.json", "9"), ("b", "o/9_2/b_logs.json", "9")] ∧
    filePath "o" "1" "2" "b" = "o/1_2/b_logs.json" ∧
    ("o/9_2/b_logs.json" : String) ≠ "o/1_2/b_logs.json" :=
  ⟨rfl, rfl, by decide⟩

/-- C5: over a range that spans three calendar days, the daily driver
performs exactly three fetch invocations; the windows are pairwise
non-overlapping and contiguous -- each window ends on the last
microsecond before the next window's start -- and the last window's end
is the overall end of day clamped to the overall end time. -/
theorem c5_daily_windows (s e : Nat) (h1 : s < e)
    (h2 : (e - 1) / usecPerDay = s / usecPerDay + 2) :
    ∃ e1 s2 e2 s3 e3,
      dailyWindows s e = [(s, e1), (s2, e2), (s3, e3)] ∧
      e1 + 1 = s2 ∧ e2 + 1 = s3 ∧
      e1 < s2 ∧ e2 < s3 ∧
      s ≤ e1 ∧ s2 ≤ e2 ∧ s3 ≤ e3 ∧
      e3 = min (get_end_of_the_day s3) e ∧ e3 ≤ e := by
  have step : ∀ s', s' < e → dailyWindows s' e =
      (s', if get_end_of_the_day s' > e then e else get_end_of_the_day s') ::
        dailyWindows (get_start_of_the_day (s' + usecPerDay)) e := by
    intro s' hs'
    rw [dailyWindows]
    rw [dif_pos hs']
  have stop : ∀ s', ¬ s' < e → dailyWindows s' e = [] := by
    intro s' hs'
    rw [dailyWindows]
    rw [dif_neg hs']
  have s2u : ∀ t : Nat, get_start_of_the_day t = t / 86400000000 * 86400000000 := by
    intro t
    simp [get_start_of_the_day, usecPerDay]
  have e2u : ∀ t : Nat, get_end_of_the_day t =
      t / 86400000000 * 86400000000 + 86399999999 := by
    intro t
    simp [get_end_of_the_day, usecPerDay]
  have hu : usecPerDay = 86400000000 := rfl
  rw [hu] at h2
  have hb : get_start_of_the_day (s + usecPerDay) < e := by
    rw [s2u, hu]
    omega
  have hc : get_start_of_the_day (get_start_of_the_day (s + usecPerDay) + usecPerDay) < e := by
    simp only [s2u, hu]
    omega
  have hd : ¬ get_start_of_the_day
      (get_start_of_the_day (get_start_of_the_day (s + usecPerDay) + usecPerDay) +
        usecPerDay) < e := by
    simp only [s2u, hu]
    omega
  refine ⟨if get_end_of_the_day s > e then e else get_end_of_the_day s,
    get_start_of_the_day (s + usecPerDay),
    if get_end_of_the_day (get_start_of_the_day (s + usecPerDay)) > e then e
      else get_end_of_the_day (get_start_of_the_day (s + usecPerDay)),
    get_start_of_the_day (get_start_of_the_day (s + usecPerDay) + usecPerDay),
    if get_end_of_the_day
        (get_start_of_the_day (get_start_of_the_day (s + usecPerDay) + usecPerDay)) > e
      then e
      else get_end_of_the_day
        (get_start_of_the_day (get_start_of_the_day (s + usecPerDay) + usecPerDay)),
    ?_, ?_, ?_, ?_, ?_, ?_, ?_, ?_, ?_, ?_⟩
  · rw [step s h1, step _ hb, step _ hc, stop _ hd]
  · simp only [e2u, s2u, hu]
    split_ifs <;> omega
  · simp only [e2u, s2u, hu]
    split_ifs <;> omega
  · simp only [e2u, s2u, hu]
    split_ifs <;> omega
  · simp only [e2u, s2u, hu]
    split_ifs <;> omega
  · simp only [e2u, s2u, hu]
    split_ifs <;> omega
  · simp only [e2u, s2u, hu]
    split_ifs <;> omega
  · simp only [e2u, s2u, hu]
    split_ifs <;> omega
  · simp only [e2u, s2u, hu]
    split_ifs <;> omega
  · simp only [e2u, s2u, hu]
    split_ifs <;> omega

/-- C5 witness: from noon of day 0 to 18:00 of day 2 -- a range
spanning three calendar days -- the driver emits exactly three
windows. -/
theorem c5_daily_windows_witness :
    43200000000 < 237600000000 ∧
    (237600000000 - 1) / usecPerDay = 43200000000 / usecPerDay + 2 ∧
    (∃ e1 s2 e2 s3 e3,
      dailyWindows 43200000000 237600000000 = [(43200000000, e1), (s2, e2), (s3, e3)] ∧
      e1 + 1 = s2 ∧ e2 + 1 = s3 ∧
      e1 < s2 ∧ e2 < s3 ∧
      43200000000 ≤ e1 ∧ s2 ≤ e2 ∧ s3 ≤ e3 ∧
      e3 = min (get_end_of_the_day s3) 237600000000 ∧ e3 ≤ 237600000000) :=
  ⟨by decide, by decide,
   c5_daily_windows 43200000000 237600000000 (by decide) (by decide)⟩

/-- C9 witness: a full set of parsed CLI attributes and a config file
without a `from_date` key make the non-daily branch raise
`AttributeError`; adding `from_date` to the config makes it reach the
fetch. -/
theorem c9_non_daily_needs_config_from_date_witness :
    ([("config", PyVal.pStr "config.json"), ("creds_path", PyVal.pNone),
      ("delegated_creds", PyVal.pNone), ("output_path", PyVal.pNone),
      ("apps", PyVal.pStr "login"), ("start_time", PyVal.pNone),
      ("end_time", PyVal.pNone), ("daily", PyVal.pBool false),
      ("update", PyVal.pBool false), ("overwrite", PyVal.pBool false),
      ("log_level", PyVal.pInt 20)].map Prod.fst = cliKeys) ∧
    (("from_date" ∉ ([("creds_path", PyVal.pStr "creds.json")].map Prod.fst) →
      nonDailyStart (mergeConfig
        [("config", PyVal.pStr "config.json"), ("creds_path", PyVal.pNone),
         ("delegated_creds", PyVal.pNone), ("output_path", PyVal.pNone),
         ("apps", PyVal.pStr "login"), ("start_time", PyVal.pNone),
         ("end_time", PyVal.pNone), ("daily", PyVal.pBool false),
         ("update", PyVal.pBool false), ("overwrite", PyVal.pBool false),
         ("log_level", PyVal.pInt 20)]
        [("creds_path", PyVal.pStr "creds.json")]) = .error ()) ∧
     ("from_date" ∈ ([("creds_path", PyVal.pStr "creds.json")].map Prod.fst) →
      ∃ v, nonDailyStart (mergeConfig
        [("config", PyVal.pStr "config.json"), ("creds_path", PyVal.pNone),
         ("delegated_creds", PyVal.pNone), ("output_path", PyVal.pNone),
         ("apps", PyVal.pStr "login"), ("start_time", PyVal.pNone),
         ("end_time", PyVal.pNone), ("daily", PyVal.pBool false),
         ("update", PyVal.pBool false), ("overwrite", PyVal.pBool false),
         ("log_level", PyVal.pInt 20)]
        [("creds_path", PyVal.pStr "creds.json")]) = .ok v)) :=
  ⟨by decide,
   c9_non_daily_needs_config_from_date
     [("config", PyVal.pStr "config.json"), ("creds_path", PyVal.pNone),
      ("delegated_creds", PyVal.pNone), ("output_path", PyVal.pNone),
      ("apps", PyVal.pStr "login"), ("start_time", PyVal.pNone),
      ("end_time", PyVal.pNone), ("daily", PyVal.pBool false),
      ("update", PyVal.pBool false), ("overwrite", PyVal.pBool false),
      ("log_level", PyVal.pInt 20)]
     [("creds_path", PyVal.pStr "creds.json")] (by decide)⟩
